import Mathlib

/-!
Verification of the sales-pipeline automation core.

Shallow embedding of the orchestration core of `automation_script.py`
(`SalesAutomationManager`): configuration loading (`load_config`), database
backup with retention pruning (`create_backup`), and data-quality validation
(`validate_data_quality`).  The embedding models:

* JSON configuration objects as association lists of string keys and
  `JsonVal` values; Python's `dict.update` becomes `dictUpdate`.
* Time as seconds since the epoch (`Int`); `datetime.now()` is the `now`
  parameter.  `timedelta(days=d)` is `d * 86400` seconds.
* SQL query results as `Except String` values: `.error e` models the query
  (or the connection) raising an exception with message `e`, which the
  source catches in its `except` block; `.ok` carries the result row.
  `MAX` over an empty day/table yields `none` (SQL `NULL`).
* Money and elapsed-hour quantities as exact rationals (`ℚ`); the Python
  float formatting `{:,.2f}` / `{:.1f}` is modelled by exact decimal
  rounding (`round`), which agrees with the source away from
  representation-level ties.
* The filesystem seen by `create_backup` as the list of files in the backup
  directory plus the list of all other files; log output is treated as an
  observation, not part of the modelled file state.
-/

/-- JSON values as stored in the configuration dictionary. -/
inductive JsonVal where
  | str (s : String)
  | num (n : Int)
  | bool (b : Bool)
  | arr (elems : List JsonVal)
  | obj (fields : List (String × JsonVal))

/-- A (Python) dictionary with string keys: an association list in insertion
order, keys unique in practice. -/
abbrev ConfigDict := List (String × JsonVal)

/-- Lookup of a key in a dictionary (first binding wins, as keys are unique). -/
def dictGet : ConfigDict → String → Option JsonVal
  | [], _ => none
  | (k', v) :: rest, k => if k' == k then some v else dictGet rest k

/-- Assignment `d[k] = v` for a Python dict: replace the existing binding in place, or
append a new binding at the end. -/
def setKV : ConfigDict → String → JsonVal → ConfigDict
  | [], k, v => [(k, v)]
  | (k', v') :: rest, k, v =>
      if k' == k then (k, v) :: rest else (k', v') :: setKV rest k v

/-- Python's `d.update(u)` for dicts: overlay every binding of `u` onto `d`,
in `u`'s order.  This is a *shallow* merge: a nested object in `u` replaces
the whole nested object in `d`. -/
def dictUpdate (d u : ConfigDict) : ConfigDict :=
  u.foldl (fun acc p => setKV acc p.1 p.2) d

/-- The `default_config` literal of `SalesAutomationManager.load_config`. -/
def defaultConfig : ConfigDict :=
  [ ("database_path", .str "sales_data.db"),
    ("backup_path", .str "backups/"),
    ("log_path", .str "logs/"),
    ("email_alerts", .obj
      [ ("enabled", .bool false),
        ("smtp_server", .str "smtp.gmail.com"),
        ("smtp_port", .num 587),
        ("sender_email", .str ""),
        ("sender_password", .str ""),
        ("recipients", .arr []) ]),
    ("data_sources", .obj
      [ ("crm_api_url", .str ""),
        ("erp_api_url", .str ""),
        ("pos_api_url", .str "") ]),
    ("quality_thresholds", .obj
      [ ("min_daily_transactions", .num 100),
        ("max_transaction_amount", .num 10000),
        ("data_freshness_hours", .num 24) ]),
    ("schedule", .obj
      [ ("etl_frequency", .str "hourly"),
        ("backup_frequency", .str "daily"),
        ("report_frequency", .str "weekly") ]) ]

/-- The method `load_config`: the input is the outcome of reading and parsing the
configuration file — `some user` when the file exists and parses to the
dictionary `user`, `none` when the file is absent (the source then writes the
defaults out) or unreadable/malformed (the source logs and falls back).  In
every case the result is `default_config` with the user's keys overlaid by
`dict.update`. -/
def load_config (parsed : Option ConfigDict) : ConfigDict :=
  match parsed with
  | some user => dictUpdate defaultConfig user
  | none => defaultConfig

/-- Two-level lookup: the value of `k2` inside the object stored at `k1`. -/
def nestedGet (d : ConfigDict) (k1 k2 : String) : Option JsonVal :=
  match dictGet d k1 with
  | some (.obj fields) => dictGet fields k2
  | _ => none

/-- Digits of `n` least-significant first, with a `,` inserted after every
three digits that are followed by more digits (US thousands grouping). -/
def groupDigits : List Char → List Char
  | d1 :: d2 :: d3 :: d4 :: rest => d1 :: d2 :: d3 :: ',' :: groupDigits (d4 :: rest)
  | l => l

/-- A natural number rendered with thousands separators, e.g. `10000 ↦ "10,000"`. -/
def natWithCommas (n : Nat) : String :=
  String.mk ((groupDigits (Nat.toDigits 10 n).reverse).reverse)

/-- Two-digit zero-padded rendering of `m < 100`. -/
def twoDigits (m : Nat) : String :=
  (if m < 10 then "0" else "") ++ toString m

/-- Computes `round (x * s)` directly on the numerator and denominator:
`⌊x·s + 1/2⌋ = ⌊(2·num·s + den) / (2·den)⌋` (floor division on `Int`). -/
def rndScale (s : Int) (x : ℚ) : Int :=
  Int.fdiv (2 * x.num * s + x.den) (2 * x.den)

/-- Python's `f"{x:,.2f}"` on an exact rational amount: round to cents, then
print with thousands separators and exactly two decimal places. -/
def fmtMoney (x : ℚ) : String :=
  let cents : Int := rndScale 100 x
  (if cents < 0 then "-" else "")
    ++ natWithCommas (cents.natAbs / 100) ++ "." ++ twoDigits (cents.natAbs % 100)

/-- Python's `f"{x:.1f}"` on an exact rational: round to tenths, print with
exactly one decimal place. -/
def fmtTenths (x : ℚ) : String :=
  let tenths : Int := rndScale 10 x
  (if tenths < 0 then "-" else "")
    ++ toString (tenths.natAbs / 10) ++ "." ++ toString (tenths.natAbs % 10)

/-- The `quality_thresholds` section of the configuration, as read by
`validate_data_quality` (`min_daily_transactions`, `max_transaction_amount`,
`data_freshness_hours`; defaults 100, 10000, 24). -/
structure Thresholds where
  min_daily_transactions : Int
  max_transaction_amount : ℚ
  data_freshness_hours : Int

/-- Results of the three SQL queries issued by `validate_data_quality`, in
issue order: today's transaction count, today's `MAX(total_amount)` (`none`
when the day has no rows), and the table-wide `MAX(transaction_date)` parsed
by `strptime('%Y-%m-%d')` to seconds since the epoch (`none` when the table
is empty).  `.error e` models the corresponding `pd.read_sql` (or the
connection itself) raising an exception with message `e`. -/
structure QueryEnv where
  countToday : Except String Int
  maxToday : Except String (Option ℚ)
  latestDate : Except String (Option Int)

/-- The f-string "Low transaction count today: ... (expected: >...)" with the
observed count and the threshold interpolated. -/
def volumeMsg (daily_count min_threshold : Int) : String :=
  "Low transaction count today: " ++ toString daily_count
    ++ " (expected: >" ++ toString min_threshold ++ ")"

/-- The f-string "Unusually high transaction detected: $..." with the amount
interpolated in the format `:,.2f`. -/
def outlierMsg (max_amount : ℚ) : String :=
  "Unusually high transaction detected: $" ++ fmtMoney max_amount

/-- The f-string "Data is stale: ... hours old (threshold: ...h)" with the
elapsed hours (format `:.1f`) and the threshold interpolated. -/
def freshMsg (hours_old : ℚ) (freshness_threshold : Int) : String :=
  "Data is stale: " ++ fmtTenths hours_old ++ " hours old (threshold: "
    ++ toString freshness_threshold ++ "h)"

/-- The f-string "Data quality check failed: ..." with the exception text
interpolated. -/
def qcFailMsg (e : String) : String := "Data quality check failed: " ++ e

/-- The method `SalesAutomationManager.validate_data_quality`.  The three checks run in
source order, each appending at most one issue to `quality_issues`; the first
query exception jumps to the `except` block, which appends a single synthetic
issue to whatever has been collected so far and falls through to
`return quality_issues`.  The function is total: it always returns a list
(the source never raises). -/
def validate_data_quality (t : Thresholds) (now : Int) (env : QueryEnv) :
    List String :=
  match env.countToday with
  | .error e => [qcFailMsg e]
  | .ok daily_count =>
    let i1 : List String :=
      if daily_count < t.min_daily_transactions then
        [volumeMsg daily_count t.min_daily_transactions]
      else []
    match env.maxToday with
    | .error e => i1 ++ [qcFailMsg e]
    | .ok m =>
      let max_amount : ℚ := m.getD 0
      let i2 : List String :=
        if max_amount > t.max_transaction_amount then [outlierMsg max_amount]
        else []
      match env.latestDate with
      | .error e => i1 ++ i2 ++ [qcFailMsg e]
      | .ok none => i1 ++ i2
      | .ok (some latest) =>
        let hours_old : ℚ := ((now - latest : Int) : ℚ) / 3600
        let i3 : List String :=
          if hours_old > (t.data_freshness_hours : ℚ) then
            [freshMsg hours_old t.data_freshness_hours]
          else []
        i1 ++ i2 ++ i3

/-- The volume check's contribution alone, given today's count. -/
def volumeIssues (t : Thresholds) (daily_count : Int) : List String :=
  if daily_count < t.min_daily_transactions then
    [volumeMsg daily_count t.min_daily_transactions]
  else []

/-- The outlier check's contribution alone, given today's `MAX(total_amount)`
(`none`, i.e. SQL `NULL`, is coerced to `0` by the source's `or 0`). -/
def outlierIssues (t : Thresholds) (m : Option ℚ) : List String :=
  if m.getD 0 > t.max_transaction_amount then [outlierMsg (m.getD 0)] else []

/-- The freshness check's contribution alone, given the parsed latest
transaction date (`none` when the table is empty: the check is skipped). -/
def freshnessIssues (t : Thresholds) (now : Int) (d : Option Int) : List String :=
  match d with
  | none => []
  | some latest =>
    if ((now - latest : Int) : ℚ) / 3600 > (t.data_freshness_hours : ℚ) then
      [freshMsg (((now - latest : Int) : ℚ) / 3600) t.data_freshness_hours]
    else []

/-- A file as `create_backup` sees it: its name (within its directory) and
its modification time in seconds since the epoch. -/
structure FileEnt where
  name : String
  mtime : Int
deriving DecidableEq

/-- The filesystem state relevant to `create_backup`: the files inside the
configured backup directory, and every other file on disk (which the
function's code never names, apart from reading the source database). -/
structure BackupState where
  files : List FileEnt
  others : List FileEnt
deriving DecidableEq

/-- Whether a file name matches the glob pattern `sales_backup_*.db` used by
the cleanup loop: literal 13-character head `sales_backup_`, literal
3-character tail `.db`, with `*` matching any (possibly empty) remainder.
Directory-entry names contain no path separator, so `*` is unconstrained. -/
def matchesBackupName (s : String) : Bool :=
  "sales_backup_".data.isPrefixOf s.data
    && ".db".data.isSuffixOf s.data
    && decide (16 ≤ s.data.length)

/-- The `datetime.now().strftime('%Y%m%d_%H%M%S')` stamp, abstracted: an
injective-per-second digit rendering of the epoch time (calendar-to-digit
conversion itself is a stdlib concern outside the core). -/
def fmtTs (now : Int) : String := toString now.toNat

/-- The method `SalesAutomationManager.create_backup`.  Arguments: the current time,
whether copying the database file succeeds (`shutil.copy2` raises when the
source is missing, the disk is full, …), the database file's modification
time (`copy2` preserves it on the copy), and the filesystem state.  Returns
the new state and whether the whole operation completed without exception.
The copy and the cleanup loop share one `try`: an exception from the copy
jumps straight to `except` (log + `send_alert`), so the cleanup loop never
runs; on success the loop deletes every `sales_backup_*.db` file in the
backup directory whose mtime is strictly older than `now - 7 days`. -/
def create_backup (now : Int) (copyOk : Bool) (dbMtime : Int)
    (st : BackupState) : BackupState × Bool :=
  if copyOk then
    let backup_file : FileEnt := ⟨"sales_backup_" ++ fmtTs now ++ ".db", dbMtime⟩
    let afterCopy := st.files ++ [backup_file]
    let cutoff := now - 7 * 86400
    let kept := afterCopy.filter
      (fun f => !(matchesBackupName f.name && decide (f.mtime < cutoff)))
    (⟨kept, st.others⟩, true)
  else
    (st, false)

theorem dictGet_setKV_same (d : ConfigDict) (k : String) (v : JsonVal) :
    dictGet (setKV d k v) k = some v := by
  induction d with
  | nil => simp [dictGet, setKV]
  | cons p rest ih =>
    obtain ⟨k', v'⟩ := p
    by_cases h : k' = k
    · simp [dictGet, setKV, h]
    · simp [dictGet, setKV, h, ih]

theorem dictGet_setKV_other (d : ConfigDict) (k kq : String) (v : JsonVal)
    (h : k ≠ kq) : dictGet (setKV d k v) kq = dictGet d kq := by
  induction d with
  | nil => simp [dictGet, setKV, h]
  | cons p rest ih =>
    obtain ⟨k', v'⟩ := p
    by_cases h2 : k' = k
    · simp [dictGet, setKV, h2, h]
    · simp only [setKV, beq_iff_eq, h2, if_false]
      by_cases h3 : k' = kq
      · simp [dictGet, h3]
      · simp [dictGet, h3, ih]

theorem dictGet_dictUpdate_of_not_key (d u : ConfigDict) (k : String)
    (h : ∀ p ∈ u, p.1 ≠ k) : dictGet (dictUpdate d u) k = dictGet d k := by
  induction u generalizing d with
  | nil => rfl
  | cons p rest ih =>
    have hp : p.1 ≠ k := h p (List.mem_cons_self p rest)
    have hr : ∀ q ∈ rest, q.1 ≠ k := fun q hq => h q (List.mem_cons_of_mem p hq)
    calc dictGet (dictUpdate (setKV d p.1 p.2) rest) k
        = dictGet (setKV d p.1 p.2) k := ih (setKV d p.1 p.2) hr
      _ = dictGet d k := dictGet_setKV_other d p.1 k p.2 hp

theorem dictGet_dictUpdate_of_key (d u : ConfigDict) (k : String) (v : JsonVal)
    (hnd : (u.map Prod.fst).Nodup) (hget : dictGet u k = some v) :
    dictGet (dictUpdate d u) k = some v := by
  induction u generalizing d with
  | nil => simp [dictGet] at hget
  | cons p rest ih =>
    obtain ⟨k1, v1⟩ := p
    rw [List.map_cons, List.nodup_cons] at hnd
    by_cases h : k1 = k
    · subst h
      have hv : v1 = v := by simpa [dictGet] using hget
      subst hv
      have hr : ∀ q ∈ rest, q.1 ≠ k1 := by
        intro q hq hEq
        have hm : q.1 ∈ rest.map Prod.fst := List.mem_map_of_mem Prod.fst hq
        rw [hEq] at hm
        exact hnd.1 hm
      calc dictGet (dictUpdate (setKV d k1 v1) rest) k1
          = dictGet (setKV d k1 v1) k1 :=
            dictGet_dictUpdate_of_not_key (setKV d k1 v1) rest k1 hr
        _ = some v1 := dictGet_setKV_same d k1 v1
    · have hget2 : dictGet rest k = some v := by simpa [dictGet, h] using hget
      exact ih (setKV d k1 v1) hnd.2 hget2

theorem validate_ok_eq (t : Thresholds) (now : Int) (c : Int) (m : Option ℚ)
    (d : Option Int) :
    validate_data_quality t now ⟨.ok c, .ok m, .ok d⟩
      = volumeIssues t c ++ outlierIssues t m ++ freshnessIssues t now d := by
  cases d <;>
    simp [validate_data_quality, volumeIssues, outlierIssues, freshnessIssues]

theorem strDataAppend (s t : String) : (s ++ t).data = s.data ++ t.data := by
  cases s; cases t; rfl

theorem volumeMsg_head (c m : Int) : (volumeMsg c m).data.head? = some 'L' := by
  rw [volumeMsg, strDataAppend, strDataAppend, strDataAppend,
    List.append_assoc, List.append_assoc]
  rfl

theorem outlierMsg_head (a : ℚ) : (outlierMsg a).data.head? = some 'U' := by
  rw [outlierMsg, strDataAppend]
  rfl

theorem freshMsg_head (h : ℚ) (ft : Int) : (freshMsg h ft).data.head? = some 'D' := by
  rw [freshMsg, strDataAppend, strDataAppend, strDataAppend,
    List.append_assoc, List.append_assoc]
  rfl

theorem volumeIssues_heads (t : Thresholds) (c : Int) :
    ∀ s ∈ volumeIssues t c, s.data.head? = some 'L' := by
  intro s hs
  rw [volumeIssues] at hs
  split at hs
  · rw [List.mem_singleton] at hs
    subst hs
    exact volumeMsg_head c t.min_daily_transactions
  · simp at hs

theorem outlierIssues_heads (t : Thresholds) (m : Option ℚ) :
    ∀ s ∈ outlierIssues t m, s.data.head? = some 'U' := by
  intro s hs
  rw [outlierIssues] at hs
  split at hs
  · rw [List.mem_singleton] at hs
    subst hs
    exact outlierMsg_head (m.getD 0)
  · simp at hs

theorem freshnessIssues_heads (t : Thresholds) (now : Int) (d : Option Int) :
    ∀ s ∈ freshnessIssues t now d, s.data.head? = some 'D' := by
  intro s hs
  cases d with
  | none => simp [freshnessIssues] at hs
  | some latest =>
    rw [freshnessIssues] at hs
    split at hs
    · rw [List.mem_singleton] at hs
      subst hs
      exact freshMsg_head _ t.data_freshness_hours
    · simp at hs

/-- Sanity check on the embedded currency format: an amount of
10000 + 0.01 renders as `10,000.01` — two decimal places with thousands
separators, as `{:,.2f}` does. -/
theorem fmtMoney_cent_example : fmtMoney (1000001 / 100) = "10,000.01" := by
  with_unfolding_all rfl

/-- Sanity check on the embedded one-decimal format: one second past 24
hours still renders as `24.0`, as `{:.1f}` does. -/
theorem fmtTenths_example : fmtTenths ((3600 * 24 + 1 : ℚ) / 3600) = "24.0" := by
  with_unfolding_all rfl

/-- C1: for every configuration and database state, `validate_data_quality`
returns a list of issue strings and never raises (the embedded function is
total); in particular, when the very first query already fails — the store is
unreachable — the `except` block makes the result the one-element list whose
single element describes the failure. -/
theorem validate_unreachable_single_issue (t : Thresholds) (now : Int)
    (e : String) (q2 : Except String (Option ℚ)) (q3 : Except String (Option Int)) :
    validate_data_quality t now ⟨.error e, q2, q3⟩ = [qcFailMsg e] := rfl

/-- C4: volume-check boundary.  With today's count exactly
`min_daily_transactions - 1` the result starts with the volume issue naming
the observed count and the threshold; with the count exactly
`min_daily_transactions` no issue of the volume check (the strings beginning
with `'L'`; the other checks' messages begin with `'U'` and `'D'`) appears. -/
theorem volume_check_boundary (t : Thresholds) (now : Int) (m : Option ℚ)
    (d : Option Int) :
    (validate_data_quality t now
        ⟨.ok (t.min_daily_transactions - 1), .ok m, .ok d⟩
      = volumeMsg (t.min_daily_transactions - 1) t.min_daily_transactions
          :: (outlierIssues t m ++ freshnessIssues t now d))
  ∧ (∀ s ∈ validate_data_quality t now
        ⟨.ok t.min_daily_transactions, .ok m, .ok d⟩,
      s.data.head? ≠ some 'L') := by
  constructor
  · rw [validate_ok_eq]
    have h : t.min_daily_transactions - 1 < t.min_daily_transactions := by omega
    simp [volumeIssues, h]
  · intro s hs
    rw [validate_ok_eq] at hs
    have hv : volumeIssues t t.min_daily_transactions = [] := by
      simp [volumeIssues]
    rw [hv, List.nil_append, List.mem_append] at hs
    rcases hs with hs | hs
    · rw [outlierIssues_heads t m s hs]
      decide
    · rw [freshnessIssues_heads t now d s hs]
      decide

/-- Witness for C4 at `thresholds = (100, 10000, 24)`: count 99 yields the
volume issue first; with count 100 the only issue present (an outlier at
$20,000.00) does not begin with `'L'`. -/
theorem volume_check_boundary_check :
    (validate_data_quality ⟨100, 10000, 24⟩ 0 ⟨.ok 99, .ok (some 20000), .ok none⟩
      = volumeMsg 99 100
          :: (outlierIssues ⟨100, 10000, 24⟩ (some 20000)
              ++ freshnessIssues ⟨100, 10000, 24⟩ 0 none))
  ∧ ("Unusually high transaction detected: $20,000.00".data.head? ≠ some 'L') :=
  ⟨(volume_check_boundary ⟨100, 10000, 24⟩ 0 (some 20000) none).1,
   (volume_check_boundary ⟨100, 10000, 24⟩ 0 (some 20000) none).2 _ (by decide)⟩

/-- C5: outlier-check boundary.  An absent day is treated as amount 0
(`or 0`); a day maximum exactly equal to `max_transaction_amount` produces no
outlier issue (the strings beginning with `'U'`); a maximum of threshold +
0.01 produces exactly one outlier issue naming the amount, formatted as
currency with two decimal places by `fmtMoney` inside `outlierMsg`. -/
theorem outlier_check_boundary (t : Thresholds) (now : Int) (c : Int)
    (d : Option Int) :
    (validate_data_quality t now ⟨.ok c, .ok none, .ok d⟩
       = validate_data_quality t now ⟨.ok c, .ok (some 0), .ok d⟩)
  ∧ (∀ s ∈ validate_data_quality t now
        ⟨.ok c, .ok (some t.max_transaction_amount), .ok d⟩,
      s.data.head? ≠ some 'U')
  ∧ (validate_data_quality t now
        ⟨.ok c, .ok (some (t.max_transaction_amount + 1 / 100)), .ok d⟩
      = volumeIssues t c
          ++ outlierMsg (t.max_transaction_amount + 1 / 100)
            :: freshnessIssues t now d) := by
  refine ⟨rfl, ?_, ?_⟩
  · intro s hs
    rw [validate_ok_eq] at hs
    have ho : outlierIssues t (some t.max_transaction_amount) = [] := by
      simp [outlierIssues]
    rw [ho, List.append_nil, List.mem_append] at hs
    rcases hs with hs | hs
    · rw [volumeIssues_heads t c s hs]
      decide
    · rw [freshnessIssues_heads t now d s hs]
      decide
  · rw [validate_ok_eq]
    have hgt : t.max_transaction_amount < t.max_transaction_amount + 1 / 100 := by
      linarith
    simp [outlierIssues, hgt]

/-- Witness for C5 at `thresholds = (100, 10000, 24)`, count 50: the
`NULL`-as-0 equation, the only issue present at max = 10000 (the volume one)
not beginning with `'U'`, and the exact output at max = 10000.01. -/
theorem outlier_check_boundary_check :
    (validate_data_quality ⟨100, 10000, 24⟩ 0 ⟨.ok 50, .ok none, .ok none⟩
        = validate_data_quality ⟨100, 10000, 24⟩ 0 ⟨.ok 50, .ok (some 0), .ok none⟩)
  ∧ ("Low transaction count today: 50 (expected: >100)".data.head? ≠ some 'U')
  ∧ (validate_data_quality ⟨100, 10000, 24⟩ 0
        ⟨.ok 50, .ok (some ((10000 : ℚ) + 1 / 100)), .ok none⟩
      = volumeIssues ⟨100, 10000, 24⟩ 50
          ++ outlierMsg ((10000 : ℚ) + 1 / 100)
            :: freshnessIssues ⟨100, 10000, 24⟩ 0 none) :=
  ⟨(outlier_check_boundary ⟨100, 10000, 24⟩ 0 50 none).1,
   (outlier_check_boundary ⟨100, 10000, 24⟩ 0 50 none).2.1 _ (by decide),
   (outlier_check_boundary ⟨100, 10000, 24⟩ 0 50 none).2.2⟩

/-- C6: freshness-check boundary.  An empty table (`MAX(transaction_date)`
is `NULL`) skips the check entirely; a latest transaction exactly
`data_freshness_hours` old produces no freshness issue; one second older
produces the issue naming the elapsed hours (one decimal place, via
`fmtTenths` inside `freshMsg`) and the threshold. -/
theorem freshness_check_boundary (t : Thresholds) (now : Int) (c : Int)
    (m : Option ℚ) :
    (validate_data_quality t now ⟨.ok c, .ok m, .ok none⟩
       = volumeIssues t c ++ outlierIssues t m)
  ∧ (validate_data_quality t now
        ⟨.ok c, .ok m, .ok (some (now - 3600 * t.data_freshness_hours))⟩
       = volumeIssues t c ++ outlierIssues t m)
  ∧ (validate_data_quality t now
        ⟨.ok c, .ok m, .ok (some (now - (3600 * t.data_freshness_hours + 1)))⟩
       = volumeIssues t c ++ outlierIssues t m
           ++ [freshMsg ((3600 * (t.data_freshness_hours : ℚ) + 1) / 3600)
                 t.data_freshness_hours]) := by
  refine ⟨?_, ?_, ?_⟩
  · rw [validate_ok_eq]
    simp [freshnessIssues]
  · rw [validate_ok_eq]
    have h1 : now - (now - 3600 * t.data_freshness_hours)
        = 3600 * t.data_freshness_hours := by ring
    have h2 : ¬ (((3600 * t.data_freshness_hours : Int) : ℚ) / 3600
        > (t.data_freshness_hours : ℚ)) := by
      push_cast
      rw [gt_iff_lt, not_lt, mul_comm, mul_div_assoc]
      norm_num
    simp [freshnessIssues, h1, h2]
  · rw [validate_ok_eq]
    have h1 : now - (now - (3600 * t.data_freshness_hours + 1))
        = 3600 * t.data_freshness_hours + 1 := by ring
    have h2 : (t.data_freshness_hours : ℚ)
        < (3600 * (t.data_freshness_hours : ℚ) + 1) / 3600 := by
      rw [lt_div_iff₀ (by norm_num : (0:ℚ) < 3600)]
      linarith
    have h3 : (((3600 * t.data_freshness_hours + 1 : Int) : ℚ) / 3600)
        = (3600 * (t.data_freshness_hours : ℚ) + 1) / 3600 := by
      push_cast
      ring
    simp [freshnessIssues, h1, h3, h2]

/-- C9: a query error arriving after earlier checks already appended issues
leaves those issues in place, in their original order, and appends exactly
one synthetic issue as the last element — the result is never truncated to
the synthetic issue alone. -/
theorem query_error_appends_after_issues (t : Thresholds) (now : Int)
    (c : Int) (a : ℚ) (e : String)
    (h1 : c < t.min_daily_transactions) (h2 : a > t.max_transaction_amount) :
    validate_data_quality t now ⟨.ok c, .ok (some a), .error e⟩
      = [volumeMsg c t.min_daily_transactions, outlierMsg a, qcFailMsg e] := by
  simp [validate_data_quality, h1, h2]

/-- Witness for C9: count 50 (< 100) and amount 20000 (> 10000) both flag,
then the third query fails; both issues survive ahead of the synthetic one. -/
theorem query_error_appends_after_issues_check :
    validate_data_quality ⟨100, 10000, 24⟩ 0
        ⟨.ok 50, .ok (some 20000), .error "unable to open database file"⟩
      = [volumeMsg 50 100, outlierMsg 20000,
         qcFailMsg "unable to open database file"] :=
  query_error_appends_after_issues ⟨100, 10000, 24⟩ 0 50 20000
    "unable to open database file" (by norm_num) (by norm_num)

/-- C2 counterexample: a user file whose `quality_thresholds` object carries
only `min_daily_transactions` while its siblings are missing.  Because
`dict.update` is a shallow merge, the returned configuration's
`quality_thresholds` no longer contains `max_transaction_amount` at all,
while the documented default (returned when no user file is present) is
10000 — the nested missing key does not fall back to its default. -/
theorem nested_default_lost :
    nestedGet
        (load_config (some
          [("quality_thresholds", .obj [("min_daily_transactions", .num 5)])]))
        "quality_thresholds" "max_transaction_amount" = none
  ∧ nestedGet (load_config none) "quality_thresholds" "max_transaction_amount"
      = some (.num 10000) :=
  ⟨rfl, rfl⟩

/-- C2 (amended): for every user configuration file missing a *top-level*
key, `load_config` returns the documented default for that key; a key
missing inside a nested section whose parent object is present in the user
file is not defaulted (the user's object replaces the whole section). -/
theorem load_config_missing_key_default (user : ConfigDict) (k : String)
    (h : ∀ p ∈ user, p.1 ≠ k) :
    dictGet (load_config (some user)) k = dictGet defaultConfig k :=
  dictGet_dictUpdate_of_not_key defaultConfig user k h

/-- Witness for the amended C2: a user file carrying only
`quality_thresholds` leaves `database_path` at its default. -/
theorem load_config_missing_key_default_check :
    dictGet
        (load_config (some
          [("quality_thresholds", .obj [("min_daily_transactions", .num 5)])]))
        "database_path"
      = some (.str "sales_data.db") :=
  (load_config_missing_key_default
      [("quality_thresholds", .obj [("min_daily_transactions", .num 5)])]
      "database_path"
      (by
        intro p hp
        rw [List.mem_singleton] at hp
        subst hp
        decide)).trans rfl

/-- C8 counterexample: `dict.update` copies keys outside the enumerated
option names into the configuration, so an unknown key is *not* ignored:
it appears in the result with the user's value, although no default binds
it. -/
theorem unknown_key_retained :
    dictGet (load_config (some [("totally_unknown_key", .num 42)]))
        "totally_unknown_key" = some (.num 42)
  ∧ dictGet defaultConfig "totally_unknown_key" = none :=
  ⟨rfl, rfl⟩

/-- C8 (amended): every key of the user file — unknown keys included — ends
up in the returned configuration bound to the user's value (for a user file
with distinct keys, as Python dictionaries guarantee). -/
theorem load_config_user_key_kept (user : ConfigDict) (k : String)
    (v : JsonVal) (hnd : (user.map Prod.fst).Nodup)
    (hget : dictGet user k = some v) :
    dictGet (load_config (some user)) k = some v :=
  dictGet_dictUpdate_of_key defaultConfig user k v hnd hget

/-- Witness for the amended C8 at the unknown key `totally_unknown_key`. -/
theorem load_config_user_key_kept_check :
    dictGet (load_config (some [("totally_unknown_key", .num 42)]))
        "totally_unknown_key" = some (.num 42) :=
  load_config_user_key_kept [("totally_unknown_key", .num 42)]
    "totally_unknown_key" (.num 42) (by simp) rfl

/-- C3 counterexample: with the database file missing (`shutil.copy2`
raises), a backup file ten days old — well past the retention window — is
*not* pruned: the copy and the cleanup loop share one `try`, so the
exception skips the loop.  Pruning is therefore not independent of backup
creation success. -/
theorem prune_skipped_on_copy_failure :
    (create_backup 864000 false 0 ⟨[⟨"sales_backup_0.db", 0⟩], []⟩
       = (⟨[⟨"sales_backup_0.db", 0⟩], []⟩, false))
  ∧ ((0 : Int) < 864000 - 7 * 86400)
  ∧ matchesBackupName "sales_backup_0.db" = true :=
  ⟨rfl, by decide, by decide⟩

/-- C3 (amended): pruning runs only as part of a successful backup creation.
When copying the database fails, the filesystem is left untouched and no
file is pruned; when copying succeeds, every matching backup file older than
the seven-day window is pruned. -/
theorem prune_requires_copy_success (now dbMtime : Int) (st : BackupState) :
    (create_backup now false dbMtime st = (st, false))
  ∧ (∀ f : FileEnt, matchesBackupName f.name = true →
      f.mtime < now - 7 * 86400 →
      f ∉ (create_backup now true dbMtime st).1.files) := by
  refine ⟨rfl, ?_⟩
  intro f hm hold hmem
  simp only [create_backup, if_true] at hmem
  rcases List.mem_filter.mp hmem with ⟨-, hpred⟩
  simp [hm] at hpred
  omega

/-- Witness for the amended C3: the failed-copy invocation returns the state
unchanged, and the successful one prunes the ten-day-old backup file. -/
theorem prune_requires_copy_success_check :
    (create_backup 864000 false 864000 ⟨[⟨"sales_backup_0.db", 0⟩], []⟩
       = (⟨[⟨"sales_backup_0.db", 0⟩], []⟩, false))
  ∧ (⟨"sales_backup_0.db", 0⟩ : FileEnt)
      ∉ (create_backup 864000 true 864000
          ⟨[⟨"sales_backup_0.db", 0⟩], []⟩).1.files :=
  ⟨(prune_requires_copy_success 864000 864000
      ⟨[⟨"sales_backup_0.db", 0⟩], []⟩).1,
   (prune_requires_copy_success 864000 864000
      ⟨[⟨"sales_backup_0.db", 0⟩], []⟩).2
     ⟨"sales_backup_0.db", 0⟩ (by decide) (by decide)⟩

/-- C7 counterexample: the retention window is not configurable — no
configuration value reaches the cleanup loop, which hardcodes seven days.
For the claim's instance `retentionDays = 3`, a backup file
`retentionDays + 1 = 4` days old would have to be deleted, yet a successful
`create_backup` retains it (4 days is within the hardcoded 7-day window). -/
theorem retention_window_not_configurable :
    ((⟨"sales_backup_a.db", 2592000 - 4 * 86400⟩ : FileEnt)
      ∈ (create_backup 2592000 true 2592000
          ⟨[⟨"sales_backup_a.db", 2592000 - 4 * 86400⟩], []⟩).1.files)
  ∧ ((2592000 - 4 * 86400 : Int) < 2592000 - 3 * 86400) :=
  ⟨by decide, by decide⟩

/-- C7 (amended): the retention window is hardcoded to 7 days
(`timedelta(days=7)`): after a successful copy, a matching backup file whose
modification time is 8 days in the past is deleted, and one 6 days in the
past is retained. -/
theorem prune_age_boundary (now dbMtime : Int) (st : BackupState)
    (f : FileEnt) (hm : matchesBackupName f.name = true)
    (hmem : f ∈ st.files) :
    (f.mtime = now - 8 * 86400 →
      f ∉ (create_backup now true dbMtime st).1.files)
  ∧ (f.mtime = now - 6 * 86400 →
      f ∈ (create_backup now true dbMtime st).1.files) := by
  constructor
  · intro h8 hin
    simp only [create_backup, if_true] at hin
    rcases List.mem_filter.mp hin with ⟨-, hpred⟩
    rw [h8] at hpred
    simp [hm] at hpred
  · intro h6
    simp only [create_backup, if_true]
    refine List.mem_filter.mpr ⟨List.mem_append_left _ hmem, ?_⟩
    rw [h6]
    simp [hm]

/-- Witness for the amended C7 at `now = 864000`: the eight-day-old backup
is deleted, the six-day-old one is retained. -/
theorem prune_age_boundary_check :
    ((⟨"sales_backup_8.db", 864000 - 8 * 86400⟩ : FileEnt)
      ∉ (create_backup 864000 true 864000
          ⟨[⟨"sales_backup_8.db", 864000 - 8 * 86400⟩,
            ⟨"sales_backup_6.db", 864000 - 6 * 86400⟩], []⟩).1.files)
  ∧ ((⟨"sales_backup_6.db", 864000 - 6 * 86400⟩ : FileEnt)
      ∈ (create_backup 864000 true 864000
          ⟨[⟨"sales_backup_8.db", 864000 - 8 * 86400⟩,
            ⟨"sales_backup_6.db", 864000 - 6 * 86400⟩], []⟩).1.files) :=
  ⟨(prune_age_boundary 864000 864000
      ⟨[⟨"sales_backup_8.db", 864000 - 8 * 86400⟩,
        ⟨"sales_backup_6.db", 864000 - 6 * 86400⟩], []⟩
      ⟨"sales_backup_8.db", 864000 - 8 * 86400⟩ (by decide) (by decide)).1 rfl,
   (prune_age_boundary 864000 864000
      ⟨[⟨"sales_backup_8.db", 864000 - 8 * 86400⟩,
        ⟨"sales_backup_6.db", 864000 - 6 * 86400⟩], []⟩
      ⟨"sales_backup_6.db", 864000 - 6 * 86400⟩ (by decide) (by decide)).2 rfl⟩

/-- C10: the cleanup loop deletes only files matching `sales_backup_*.db`
inside the backup directory: every file of the backup directory that does
not match the pattern survives `create_backup` unchanged, and files outside
the backup directory are never touched (whether or not the copy succeeds). -/
theorem backup_frame_effect (now : Int) (copyOk : Bool) (dbMtime : Int)
    (st : BackupState) :
    ((create_backup now copyOk dbMtime st).1.others = st.others)
  ∧ (∀ f ∈ st.files, matchesBackupName f.name = false →
      f ∈ (create_backup now copyOk dbMtime st).1.files) := by
  cases copyOk with
  | false => exact ⟨rfl, fun f hf _ => hf⟩
  | true =>
    refine ⟨rfl, ?_⟩
    intro f hf hm
    simp only [create_backup, if_true]
    exact List.mem_filter.mpr ⟨List.mem_append_left _ hf, by simp [hm]⟩

/-- Witness for C10: a stray `notes.txt` in the backup directory — even one
old enough to fall outside the retention window — survives, and a file
outside the backup directory is untouched. -/
theorem backup_frame_effect_check :
    ((create_backup 864000 true 864000
        ⟨[⟨"notes.txt", 0⟩], [⟨"sales_data.db", 5⟩]⟩).1.others
      = [⟨"sales_data.db", 5⟩])
  ∧ (⟨"notes.txt", 0⟩ : FileEnt)
      ∈ (create_backup 864000 true 864000
          ⟨[⟨"notes.txt", 0⟩], [⟨"sales_data.db", 5⟩]⟩).1.files :=
  ⟨(backup_frame_effect 864000 true 864000
      ⟨[⟨"notes.txt", 0⟩], [⟨"sales_data.db", 5⟩]⟩).1,
   (backup_frame_effect 864000 true 864000
      ⟨[⟨"notes.txt", 0⟩], [⟨"sales_data.db", 5⟩]⟩).2
     ⟨"notes.txt", 0⟩ (by decide) (by decide)⟩
